import Mathlib

/-!
Verification development for the m3u8 playlist module
(`src/m3u8/playlist/mod.rs`).

The Rust code is shallowly embedded as executable Lean functions:

* Strings are `List Char` internally (converted at the API boundary).
* Each `Regex::new(...).captures(...)` call site is embedded as a dedicated
  matcher that implements that concrete pattern with leftmost-first
  (Perl-priority) semantics: greedy character-class runs are `takeWhile`
  (no shorter run can succeed when the pattern continues with a character
  excluded from the class), optional groups try the present alternative
  first, and the `EXTINF` pattern, which genuinely needs backtracking,
  enumerates quantifier alternatives in priority order.
* `captures_iter` is embedded as a scan producing the list of
  non-overlapping leftmost matches.
* Rust `f32` values are modelled as exact rationals (`ℚ`); `str::parse`
  for floats accepts the plain decimal forms (optional sign, digits,
  at most one dot, at least one digit) — scientific notation, `inf` and
  `nan` are not modelled, and every value exercised by the theorems below
  is an exactly representable small decimal.  Integer fields are `Nat`
  (`u32`-bounded where the source names the width explicitly).
* A Rust panic (`unwrap` on `None`/`Err`) is modelled as `Except.error
  panicMsg`; the code under scrutiny otherwise never produces `Err`.

The `Tag` and `ValidationError` enums and the serializer (`Display for
Tag`) live in sibling modules that are not part of the provided source;
`Tag`/`ValidationError` are reconstructed from their uses in
`mod.rs`, and the serializer is modelled from the spec (see `render`).
-/

namespace M3U8

/-! ## Character classes (ASCII fragment of the Rust regex classes) -/

def rustWs (c : Char) : Bool :=
  c = ' ' || c = '\t' || c = '\n' || c = '\r' || c = '\x0b' || c = '\x0c'

def isUpperAZ (c : Char) : Bool :=
  65 ≤ c.toNat && c.toNat ≤ 90

/-- Class `[A-Z-]` used by the SERVER-CONTROL / SKIP attribute patterns. -/
def isKeyChar (c : Char) : Bool :=
  isUpperAZ c || c = '-'

/-- Class `[A-Za-z0-9\-]` used by the EXT-X-KEY METHOD capture. -/
def isMethodChar (c : Char) : Bool :=
  c.isAlpha || c.isDigit || c = '-'

/-- Regex `\w` (ASCII fragment). -/
def isWordChar (c : Char) : Bool :=
  c.isAlpha || c.isDigit || c = '_'

/-- Class `[\d\.]`. -/
def isDigitDot (c : Char) : Bool :=
  c.isDigit || c = '.'

/-! ## Numeric parsing -/

def natOfDigits (ds : List Char) : Nat :=
  ds.foldl (fun n c => n * 10 + (c.toNat - 48)) 0

/-- Rust `str::parse::<u32>().ok()` on an arbitrary capture. -/
def parseU32 (s : List Char) : Option Nat :=
  if s.isEmpty then none
  else if s.all Char.isDigit then
    let n := natOfDigits s
    if n < 4294967296 then some n else none
  else none

/-- The exact rational `ds.fs` denoted by integer digits `ds` and fractional
digits `fs` (built with `mkRat` so that it evaluates in the kernel). -/
def decVal (ds fs : List Char) : ℚ :=
  mkRat (Int.ofNat (natOfDigits ds * 10 ^ fs.length + natOfDigits fs)) (10 ^ fs.length)

/-- Rust `str::parse::<f32>` on plain decimal forms (exact value model). -/
def parseF32Core (s : List Char) : Option ℚ :=
  let ds := s.takeWhile Char.isDigit
  match s.dropWhile Char.isDigit with
  | [] => if ds.isEmpty then none else some (mkRat (Int.ofNat (natOfDigits ds)) 1)
  | '.' :: r =>
    let fs := r.takeWhile Char.isDigit
    if (r.dropWhile Char.isDigit).isEmpty then
      if ds.isEmpty && fs.isEmpty then none
      else some (decVal ds fs)
    else none
  | _ => none

def parseF32 (s : List Char) : Option ℚ :=
  match s with
  | '+' :: r => parseF32Core r
  | '-' :: r => (parseF32Core r).map Neg.neg
  | _ => parseF32Core s

/-! ## Data model (reconstructed `Tag`, `ValidationError`, `Playlist`) -/

inductive Tag where
  | extM3U
  | extXVersion (v : Nat)
  | extXTargetDuration (d : Nat)
  | extXPlaylistType (t : String)
  | extXMediaSequence (n : Nat)
  | extXDiscontinuitySequence (n : Nat)
  | extXEndList
  | extXKey (method : String) (uri iv keyformat keyformatversions : Option String)
  | extXMap (uri : String) (byterange : Option String)
  | extXProgramDateTime (dt : String)
  | extXDiscontinuity
  | extXPart (uri : String) (duration : Option ℚ) (independent : Option Bool)
  | extXPartInf (partTargetDuration : ℚ) (partNumber : Option Nat)
  | extXServerControl (canPlay canSeek canPause : Option Bool)
      (minBufferTime : Option ℚ) (canBlockReload : Option Bool)
      (partHoldBack canSkipUntil : Option ℚ)
  | extXSkip (skippedSegments : Nat) (recentlyRemovedDateranges : Option String)
  | extXStart (timeOffset : String) (precise : Option Bool)
  | extXIndependentSegments
  | extXStreamInf (bandwidth : Nat) (resolution codecs : Option String)
      (frameRate : Option ℚ) (audio video subtitle closedCaptions : Option String)
  | extXMedia (type_ groupId : String) (name language instreamId languageCodec : Option String)
      (default autoplay : Option Bool) (characteristics uri : Option String)
      (forced : Option Bool)
  | extXRenditionReport (uri : String) (bandwidth : Nat)
  | extXByteRange (r : String)
  | extXIFrameStreamInf (bandwidth : Nat) (codecs resolution : Option String)
      (frameRate : Option ℚ) (uri : String)
  | extXSessionData (id value : String) (language : Option String)
  | extXPreloadHint (type_ : Option String) (uri : String) (byterange : Option String)
  | extInf (segment : String) (duration : ℚ) (title : Option String)
  | extXSessionKey (method : String) (uri iv : Option String)
  | extXGap
  | extXBitrate (b : Int)
  deriving DecidableEq

inductive ValidationError where
  | missingExtM3U
  | invalidVersion (v : Nat)
  | invalidDuration (d : ℚ)
  | invalidTargetDuration (d : Nat)
  | invalidKeyMethod (m : String)
  | invalidMapUri
  | invalidProgramDateTime
  | invalidBitrate (b : Int)
  | invalidStartOffset
  | invalidSkipTag (s : String)
  | invalidPreloadHintUri
  | invalidRenditionReportUri
  deriving DecidableEq

structure Playlist where
  tags : List Tag
  deriving DecidableEq

/-- Result of a `panic!` (`unwrap` on `None`/`Err`), modelled as an error. -/
def panicMsg : String := "panic"

/-! ## Matcher building blocks -/

/-- Match a literal, returning the remaining input. -/
def lit (p cs : List Char) : Option (List Char) :=
  if p.isPrefixOf cs then some (cs.drop p.length) else none

/-- Regex fragment `([^"]+)"`: one or more non-quote chars, then the quote. -/
def quotedPlus (cs : List Char) : Option (List Char × List Char) :=
  if (cs.takeWhile (fun c => c != '"')).isEmpty then none
  else
    match cs.dropWhile (fun c => c != '"') with
    | '"' :: r => some (cs.takeWhile (fun c => c != '"'), r)
    | _ => none

/-- Regex fragment `([^"]*)"`: zero or more non-quote chars, then the quote. -/
def quotedStar (cs : List Char) : Option (List Char × List Char) :=
  let u := cs.takeWhile (fun c => c != '"')
  match cs.dropWhile (fun c => c != '"') with
  | '"' :: r => some (u, r)
  | _ => none

/-- Unanchored search: try the matcher at each start position, leftmost first. -/
def firstSome (m : List Char → Option α) : List Char → Option α
  | [] => m []
  | c :: cs =>
    match m (c :: cs) with
    | some r => some r
    | none => firstSome m cs

/-- Literal keyword followed by a greedy, nonempty class run (end of pattern). -/
def litClassPlus (kw : String) (cls : Char → Bool) (cs : List Char) : Option (List Char) :=
  match lit kw.toList cs with
  | none => none
  | some r =>
    let d := r.takeWhile cls
    if d.isEmpty then none else some d

/-! ## Backtracking alternatives for the `EXTINF` pattern -/

/-- Alternatives of a greedy `cls+`: (capture, rest), longest capture first. -/
def plusSplitsGreedy (cls : Char → Bool) (cs : List Char) : List (List Char × List Char) :=
  let run := cs.takeWhile cls
  let rest := cs.dropWhile cls
  (List.range run.length).reverse.map (fun i => (run.take (i + 1), run.drop (i + 1) ++ rest))

/-- Alternatives of `(\.\d+)?`, present first. -/
def fracSplits (cs : List Char) : List (List Char × List Char) :=
  match cs with
  | '.' :: r =>
    ((plusSplitsGreedy Char.isDigit r).map (fun p => ('.' :: p.1, p.2))) ++ [([], cs)]
  | _ => [([], cs)]

/-- Alternatives of `,?`: consume the comma first when present. -/
def commaOpts (cs : List Char) : List (List Char) :=
  match cs with
  | ',' :: r => [r, cs]
  | _ => [cs]

/-- Alternatives of a greedy `\s*`: most whitespace consumed first. -/
def wsStarSplits (cs : List Char) : List (List Char) :=
  (List.range ((cs.takeWhile rustWs).length + 1)).reverse.map (fun i => cs.drop i)

/-- Alternatives of a lazy `(.*?)` (dot excludes newline), shortest first. -/
def lazyDotSplits (cs : List Char) : List (List Char × List Char) :=
  let run := cs.takeWhile (fun c => c != '\n')
  let rest := cs.dropWhile (fun c => c != '\n')
  (List.range (run.length + 1)).map (fun i => (run.take i, run.drop i ++ rest))

/-! ## Per-branch matchers, in source order of `Playlist::parse_line` -/

/-- Pattern `EXT-X-KEY:METHOD=([A-Za-z0-9\-]+),URI="([^"]+)"(?:,IV="([^"]*)")?(?:,KEYFORMAT="([^"]+)")?(?:,KEYFORMATVERSIONS="([^"]+)")?`. -/
def keyIv (cs : List Char) : Option (List Char) × List Char :=
  match lit ",IV=\"".toList cs with
  | none => (none, cs)
  | some r =>
    match quotedStar r with
    | none => (none, cs)
    | some (v, r2) => (some v, r2)

def keyOptQ (kw : String) (cs : List Char) : Option (List Char) × List Char :=
  match lit kw.toList cs with
  | none => (none, cs)
  | some r =>
    match quotedPlus r with
    | none => (none, cs)
    | some (v, r2) => (some v, r2)

def keyHere (cs : List Char) :
    Option (List Char × List Char × Option (List Char) × Option (List Char) × Option (List Char)) :=
  match lit "EXT-X-KEY:METHOD=".toList cs with
  | none => none
  | some r0 =>
    let m := r0.takeWhile isMethodChar
    if m.isEmpty then none
    else
      match lit ",URI=\"".toList (r0.dropWhile isMethodChar) with
      | none => none
      | some r1 =>
        match quotedPlus r1 with
        | none => none
        | some (u, r2) =>
          let iv := keyIv r2
          let kf := keyOptQ ",KEYFORMAT=\"" iv.2
          let kfv := keyOptQ ",KEYFORMATVERSIONS=\"" kf.2
          some (m, u, iv.1, kf.1, kfv.1)

/-- Optional group `(?:,BYTERANGE="([^"]+)")?` of the `EXT-X-MAP` pattern. -/
def mapByte (cs : List Char) : Option (List Char) :=
  match lit ",BYTERANGE=\"".toList cs with
  | some r2 =>
    match quotedPlus r2 with
    | some (b, _) => some b
    | none => none
  | none => none

/-- Pattern `EXT-X-MAP:URI="([^"]+)"(?:,BYTERANGE="([^"]+)")?`. -/
def mapHere (cs : List Char) : Option (List Char × Option (List Char)) :=
  match lit "EXT-X-MAP:URI=\"".toList cs with
  | none => none
  | some r0 =>
    match quotedPlus r0 with
    | none => none
    | some (u, r1) => some (u, mapByte r1)

/-- Pattern `EXT-X-PART:URI="([^\"]+)",DURATION=([\d\.]+)`. -/
def partHere (cs : List Char) : Option (List Char × List Char) :=
  match lit "EXT-X-PART:URI=\"".toList cs with
  | none => none
  | some r0 =>
    match quotedPlus r0 with
    | none => none
    | some (u, r1) =>
      match lit ",DURATION=".toList r1 with
      | none => none
      | some r2 =>
        let d := r2.takeWhile isDigitDot
        if d.isEmpty then none else some (u, d)

/-- Pattern `EXT-X-START:TIME-OFFSET=([\d\.]+),PRECISE=(\w+)`. -/
def startHere (cs : List Char) : Option (List Char × List Char) :=
  match lit "EXT-X-START:TIME-OFFSET=".toList cs with
  | none => none
  | some r0 =>
    let t := r0.takeWhile isDigitDot
    if t.isEmpty then none
    else
      match lit ",PRECISE=".toList (r0.dropWhile isDigitDot) with
      | none => none
      | some r1 =>
        let w := r1.takeWhile isWordChar
        if w.isEmpty then none else some (t, w)

/-- Pattern `EXT-X-STREAM-INF:BANDWIDTH=(\d+),RESOLUTION=([^,]+),CODECS="([^"]+)"\s*(\S+)`
(the trailing `(\S+)` group is required for the match but unused by the code). -/
def streamInfHere (cs : List Char) : Option (List Char × List Char × List Char) :=
  match lit "EXT-X-STREAM-INF:BANDWIDTH=".toList cs with
  | none => none
  | some r0 =>
    let bw := r0.takeWhile Char.isDigit
    if bw.isEmpty then none
    else
      match lit ",RESOLUTION=".toList (r0.dropWhile Char.isDigit) with
      | none => none
      | some r1 =>
        let res := r1.takeWhile (fun c => c != ',')
        if res.isEmpty then none
        else
          match lit ",CODECS=\"".toList (r1.dropWhile (fun c => c != ',')) with
          | none => none
          | some r2 =>
            match quotedPlus r2 with
            | none => none
            | some (cdc, r3) =>
              let r4 := r3.dropWhile rustWs
              if (r4.takeWhile (fun c => !(rustWs c))).isEmpty then none
              else some (bw, res, cdc)

/-- Pattern `EXT-X-RENDITION-REPORT:URI="([^"]+)",BANDWIDTH=(\d+)`. -/
def renditionHere (cs : List Char) : Option (List Char × List Char) :=
  match lit "EXT-X-RENDITION-REPORT:URI=\"".toList cs with
  | none => none
  | some r0 =>
    match quotedPlus r0 with
    | none => none
    | some (u, r1) =>
      match lit ",BANDWIDTH=".toList r1 with
      | none => none
      | some r2 =>
        let bw := r2.takeWhile Char.isDigit
        if bw.isEmpty then none else some (u, bw)

/-- Pattern `EXT-X-I-FRAME-STREAM-INF:BANDWIDTH=(\d+),URI="([^"]+)"`. -/
def iframeHere (cs : List Char) : Option (List Char × List Char) :=
  match lit "EXT-X-I-FRAME-STREAM-INF:BANDWIDTH=".toList cs with
  | none => none
  | some r0 =>
    let bw := r0.takeWhile Char.isDigit
    if bw.isEmpty then none
    else
      match lit ",URI=\"".toList (r0.dropWhile Char.isDigit) with
      | none => none
      | some r1 =>
        match quotedPlus r1 with
        | none => none
        | some (u, _) => some (bw, u)

/-- Pattern `EXT-X-SESSION-DATA:ID="([^"]+)",VALUE="([^"]+)",LANGUAGE="([^"]+)"`. -/
def sessionDataHere (cs : List Char) : Option (List Char × List Char × List Char) :=
  match lit "EXT-X-SESSION-DATA:ID=\"".toList cs with
  | none => none
  | some r0 =>
    match quotedPlus r0 with
    | none => none
    | some (i, r1) =>
      match lit ",VALUE=\"".toList r1 with
      | none => none
      | some r2 =>
        match quotedPlus r2 with
        | none => none
        | some (v, r3) =>
          match lit ",LANGUAGE=\"".toList r3 with
          | none => none
          | some r4 =>
            match quotedPlus r4 with
            | none => none
            | some (l, _) => some (i, v, l)

/-- Pattern `EXT-X-PRELOAD-HINT:URI="([^"]+)",BYTERANGE="([^"]+)"`. -/
def preloadHere (cs : List Char) : Option (List Char × List Char) :=
  match lit "EXT-X-PRELOAD-HINT:URI=\"".toList cs with
  | none => none
  | some r0 =>
    match quotedPlus r0 with
    | none => none
    | some (u, r1) =>
      match lit ",BYTERANGE=\"".toList r1 with
      | none => none
      | some r2 =>
        match quotedPlus r2 with
        | none => none
        | some (b, _) => some (u, b)

/-- Pattern `EXT-X-SESSION-KEY:METHOD=([^,]+),URI="([^"]+)",IV="([^"]+)"`. -/
def sessionKeyHere (cs : List Char) : Option (List Char × List Char × List Char) :=
  match lit "EXT-X-SESSION-KEY:METHOD=".toList cs with
  | none => none
  | some r0 =>
    let m := r0.takeWhile (fun c => c != ',')
    if m.isEmpty then none
    else
      match lit ",URI=\"".toList (r0.dropWhile (fun c => c != ',')) with
      | none => none
      | some r1 =>
        match quotedPlus r1 with
        | none => none
        | some (u, r2) =>
          match lit ",IV=\"".toList r2 with
          | none => none
          | some r3 =>
            match quotedPlus r3 with
            | none => none
            | some (iv, _) => some (m, u, iv)

/-- Tail `,?\s*(.*?),?\s*(\S+)` of the `EXTINF` pattern, with backtracking. -/
def extinfTail (cs : List Char) : Option (List Char × List Char) :=
  (commaOpts cs).findSome? (fun r3 =>
    (wsStarSplits r3).findSome? (fun r4 =>
      (lazyDotSplits r4).findSome? (fun p =>
        (commaOpts p.2).findSome? (fun r6 =>
          (wsStarSplits r6).findSome? (fun r7 =>
            let seg := r7.takeWhile (fun c => !(rustWs c))
            if seg.isEmpty then none else some (p.1, seg))))))

/-- Pattern `EXTINF:(\d+(\.\d+)?),?\s*(.*?),?\s*(\S+)`. -/
def extinfHere (cs : List Char) : Option (List Char × List Char × List Char) :=
  match lit "EXTINF:".toList cs with
  | none => none
  | some r0 =>
    (plusSplitsGreedy Char.isDigit r0).findSome? (fun d =>
      (fracSplits d.2).findSome? (fun f =>
        (extinfTail f.2).map (fun ts => (d.1 ++ f.1, ts.1, ts.2))))

/-! ## `captures_iter` scans (SERVER-CONTROL and SKIP attribute extraction) -/

/-- One attempted match of `([A-Z-]+)=([^,]+)` at the current position. -/
def attrHere (cs : List Char) : Option (String × String × List Char) :=
  let k := cs.takeWhile isKeyChar
  match cs.dropWhile isKeyChar with
  | '=' :: r =>
    if k.isEmpty then none
    else
      let v := r.takeWhile (fun c => c != ',')
      if v.isEmpty then none
      else some (k.asString, v.asString, r.dropWhile (fun c => c != ','))
  | _ => none

def scanAttrsF : Nat → List Char → List (String × String)
  | 0, _ => []
  | _ + 1, [] => []
  | n + 1, c :: cs =>
    match attrHere (c :: cs) with
    | some (k, v, rest) => (k, v) :: scanAttrsF n rest
    | none => scanAttrsF n cs

/-- `captures_iter` for `([A-Z-]+)=([^,]+)` (fuelled by the input length). -/
def scanAttrs (cs : List Char) : List (String × String) :=
  scanAttrsF cs.length cs

/-- One attempted match of `([A-Z-]+)=("([^"]*)"|([^,]+))` at the current position. -/
def attrHereQ (cs : List Char) : Option (String × String × List Char) :=
  let k := cs.takeWhile isKeyChar
  match cs.dropWhile isKeyChar with
  | '=' :: r =>
    if k.isEmpty then none
    else
      match r with
      | '"' :: r2 =>
        (match r2.dropWhile (fun c => c != '"') with
         | '"' :: r3 => some (k.asString, (r2.takeWhile (fun c => c != '"')).asString, r3)
         | _ =>
           let v := r.takeWhile (fun c => c != ',')
           if v.isEmpty then none
           else some (k.asString, v.asString, r.dropWhile (fun c => c != ',')))
      | _ =>
        let v := r.takeWhile (fun c => c != ',')
        if v.isEmpty then none
        else some (k.asString, v.asString, r.dropWhile (fun c => c != ','))
  | _ => none

def scanAttrsQF : Nat → List Char → List (String × String)
  | 0, _ => []
  | _ + 1, [] => []
  | n + 1, c :: cs =>
    match attrHereQ (c :: cs) with
    | some (k, v, rest) => (k, v) :: scanAttrsQF n rest
    | none => scanAttrsQF n cs

/-- `captures_iter` for `([A-Z-]+)=("([^"]*)"|([^,]+))`. -/
def scanAttrsQ (cs : List Char) : List (String × String) :=
  scanAttrsQF cs.length cs

/-! ## The `EXT-X-MEDIA` pattern -/

/-- Alternatives for an optional group: present result first, then absent. -/
def optPart (pres : Option (α × List Char)) (cs : List Char) : List (Option α × List Char) :=
  match pres with
  | some (v, r) => [(some v, r), (none, cs)]
  | none => [(none, cs)]

/-- Optional group `(?:KW"([^"]+)")?` (keyword includes its opening quote). -/
def mediaQuoted (kw : String) (cs : List Char) : List (Option (List Char) × List Char) :=
  optPart
    (match lit kw.toList cs with
     | none => none
     | some r => quotedPlus r) cs

/-- Optional group `(?:KW(YES|NO))?`, capture modelled as the `== "YES"` Bool. -/
def mediaYesNo (kw : String) (cs : List Char) : List (Option Bool × List Char) :=
  optPart
    (match lit kw.toList cs with
     | none => none
     | some r =>
       match lit "YES".toList r with
       | some r2 => some (true, r2)
       | none =>
         match lit "NO".toList r with
         | some r2 => some (false, r2)
         | none => none) cs

/-- Optional group `(?:KW([^,]+))?`. -/
def mediaClass (kw : String) (cs : List Char) : List (Option (List Char) × List Char) :=
  optPart
    (match lit kw.toList cs with
     | none => none
     | some r =>
       let v := r.takeWhile (fun c => c != ',')
       if v.isEmpty then none else some (v, r.dropWhile (fun c => c != ','))) cs

/-- Capture groups 1-11 of the `EXT-X-MEDIA` pattern. -/
structure MediaCaps where
  g1 : List Char
  g2 : List Char
  g3 : Option (List Char)
  g4 : Option (List Char)
  g5 : Option Bool
  g6 : Option Bool
  g7 : Option (List Char)
  g8 : Option (List Char)
  g9 : Option (List Char)
  g10 : Option (List Char)
  g11 : Option Bool
  deriving DecidableEq

/-- Pattern `EXT-X-MEDIA:TYPE=(\w+),GROUP-ID="([^"]+)",(?:NAME="([^"]+)")?,(?:LANGUAGE="([^"]+)")?,(?:DEFAULT=(YES|NO))?,(?:AUTOSELECT=(YES|NO))?,(?:URI="([^"]+)")?,(?:CHARACTERISTICS=([^,]+))?,(?:LANGUAGE-CODEC="([^"]+)")?,(?:INSTREAM-ID="([^"]+)")?,(?:FORCED=(YES|NO))?`. -/
def mediaHere (cs : List Char) : Option MediaCaps :=
  match lit "EXT-X-MEDIA:TYPE=".toList cs with
  | none => none
  | some r0 =>
    let w := r0.takeWhile isWordChar
    if w.isEmpty then none
    else
      match lit ",GROUP-ID=\"".toList (r0.dropWhile isWordChar) with
      | none => none
      | some r1 =>
        match quotedPlus r1 with
        | none => none
        | some (gid, r2) =>
          match lit ",".toList r2 with
          | none => none
          | some r3 =>
            (mediaQuoted "NAME=\"" r3).findSome? (fun n4 =>
              (lit ",".toList n4.2).bind (fun r5 =>
                (mediaQuoted "LANGUAGE=\"" r5).findSome? (fun l6 =>
                  (lit ",".toList l6.2).bind (fun r7 =>
                    (mediaYesNo "DEFAULT=" r7).findSome? (fun d8 =>
                      (lit ",".toList d8.2).bind (fun r9 =>
                        (mediaYesNo "AUTOSELECT=" r9).findSome? (fun a10 =>
                          (lit ",".toList a10.2).bind (fun r11 =>
                            (mediaQuoted "URI=\"" r11).findSome? (fun u12 =>
                              (lit ",".toList u12.2).bind (fun r13 =>
                                (mediaClass "CHARACTERISTICS=" r13).findSome? (fun c14 =>
                                  (lit ",".toList c14.2).bind (fun r15 =>
                                    (mediaQuoted "LANGUAGE-CODEC=\"" r15).findSome? (fun lc16 =>
                                      (lit ",".toList lc16.2).bind (fun r17 =>
                                        (mediaQuoted "INSTREAM-ID=\"" r17).findSome? (fun i18 =>
                                          (lit ",".toList i18.2).bind (fun r19 =>
                                            (mediaYesNo "FORCED=" r19).findSome? (fun f20 =>
                                              some ⟨w, gid, n4.1, l6.1, d8.1, a10.1, u12.1,
                                                    c14.1, lc16.1, i18.1, f20.1⟩)))))))))))))))))

/-! ## `parse_line` -/

/-- SERVER-CONTROL accumulator (the seven mutable locals of the source). -/
structure SCState where
  canPlay : Option Bool
  canSeek : Option Bool
  canPause : Option Bool
  minBufferTime : Option ℚ
  canBlockReload : Option Bool
  partHoldBack : Option ℚ
  canSkipUntil : Option ℚ
  deriving DecidableEq

def scInit : SCState := ⟨none, none, none, none, none, none, none⟩

/-- One iteration of the SERVER-CONTROL `for cap in captures_iter` loop. -/
def scUpd (st : SCState) (kv : String × String) : SCState :=
  if kv.1 = "CAN-PLAY" then { st with canPlay := some (kv.2 = "YES") }
  else if kv.1 = "CAN-SEEK" then { st with canSeek := some (kv.2 = "YES") }
  else if kv.1 = "CAN-PAUSE" then { st with canPause := some (kv.2 = "YES") }
  else if kv.1 = "MIN-BUFFER-TIME" then
    match parseF32 kv.2.toList with
    | some q => { st with minBufferTime := some q }
    | none => st
  else if kv.1 = "CAN-BLOCK-RELOAD" then { st with canBlockReload := some (kv.2 = "YES") }
  else if kv.1 = "PART-HOLD-BACK" then
    match parseF32 kv.2.toList with
    | some q => { st with partHoldBack := some q }
    | none => st
  else if kv.1 = "CAN-SKIP-UNTIL" then
    match parseF32 kv.2.toList with
    | some q => { st with canSkipUntil := some q }
    | none => st
  else st

/-- The `at least one attribute was found` condition of the source. -/
def scAny (st : SCState) : Bool :=
  st.canPlay.isSome || st.canSeek.isSome || st.canPause.isSome ||
  st.minBufferTime.isSome || st.canBlockReload.isSome ||
  st.partHoldBack.isSome || st.canSkipUntil.isSome

/-- A captured `KEY=value` pair that the SERVER-CONTROL loop actually uses:
one of the seven recognized keys, with a parsable value where the source
parses one. -/
def recognizedSC (kv : String × String) : Bool :=
  kv.1 = "CAN-PLAY" || kv.1 = "CAN-SEEK" || kv.1 = "CAN-PAUSE" ||
  (kv.1 = "MIN-BUFFER-TIME" && (parseF32 kv.2.toList).isSome) ||
  kv.1 = "CAN-BLOCK-RELOAD" ||
  (kv.1 = "PART-HOLD-BACK" && (parseF32 kv.2.toList).isSome) ||
  (kv.1 = "CAN-SKIP-UNTIL" && (parseF32 kv.2.toList).isSome)

/-- One iteration of the SKIP attribute loop. -/
def skipUpd (st : Option Nat × Option String) (kv : String × String) :
    Option Nat × Option String :=
  if kv.1 = "SKIPPED-SEGMENTS" then (parseU32 kv.2.toList, st.2)
  else if kv.1 = "RECENTLY-REMOVED-DATERANGES" then (st.1, some kv.2)
  else st

/-- Shorthand for the result type of one `if trimmed.starts_with(...)` block:
`none` means control falls through to the next block. -/
def PLRes : Type := Option (Except String (Option Tag))

def bodyM3U (_ : List Char) : PLRes :=
  some (.ok (some Tag.extM3U))

def bodyVersion (t : List Char) : PLRes :=
  (firstSome (litClassPlus "EXT-X-VERSION:" Char.isDigit) t).map
    (fun d => .ok (some (Tag.extXVersion (natOfDigits d))))

def bodyTargetDuration (t : List Char) : PLRes :=
  (firstSome (litClassPlus "EXT-X-TARGETDURATION:" Char.isDigit) t).map
    (fun d => .ok (some (Tag.extXTargetDuration (natOfDigits d))))

def bodyPlaylistType (t : List Char) : PLRes :=
  (firstSome (litClassPlus "EXT-X-PLAYLIST-TYPE:" isWordChar) t).map
    (fun w => .ok (some (Tag.extXPlaylistType w.asString)))

def bodyMediaSequence (t : List Char) : PLRes :=
  (firstSome (litClassPlus "EXT-X-MEDIA-SEQUENCE:" Char.isDigit) t).map
    (fun d => .ok (some (Tag.extXMediaSequence (natOfDigits d))))

def bodyDiscontinuitySequence (t : List Char) : PLRes :=
  (firstSome (litClassPlus "EXT-X-DISCONTINUITY-SEQUENCE:" Char.isDigit) t).map
    (fun d => .ok (some (Tag.extXDiscontinuitySequence (natOfDigits d))))

def bodyEndList (_ : List Char) : PLRes :=
  some (.ok (some Tag.extXEndList))

def bodyKey (t : List Char) : PLRes :=
  (firstSome keyHere t).map
    (fun c => .ok (some (Tag.extXKey c.1.asString (some c.2.1.asString)
      (c.2.2.1.map List.asString) (c.2.2.2.1.map List.asString)
      (c.2.2.2.2.map List.asString))))

def bodyMap (t : List Char) : PLRes :=
  (firstSome mapHere t).map
    (fun p =>
      match p.2 with
      | none => .ok (some (Tag.extXMap p.1.asString none))
      | some b =>
        if b.asString = "" then .ok (some (Tag.extXMap p.1.asString none))
        else .ok (some (Tag.extXMap p.1.asString (some b.asString))))

def bodyProgramDateTime (t : List Char) : PLRes :=
  (firstSome (litClassPlus "EXT-X-PROGRAM-DATE-TIME:" (fun c => !(rustWs c))) t).map
    (fun d => .ok (some (Tag.extXProgramDateTime d.asString)))

def bodyDiscontinuity (_ : List Char) : PLRes :=
  some (.ok (some Tag.extXDiscontinuity))

def bodyPart (t : List Char) : PLRes :=
  (firstSome partHere t).map
    (fun p =>
      match parseF32 p.2 with
      | some q => .ok (some (Tag.extXPart p.1.asString (some q) none))
      | none => .error panicMsg)

def bodyPartInf (t : List Char) : PLRes :=
  match firstSome (litClassPlus "EXT-X-PART-INF:PART-TARGET=" isDigitDot) t with
  | some d =>
    some (match parseF32 d with
          | some q => .ok (some (Tag.extXPartInf q none))
          | none => .error panicMsg)
  | none =>
    match firstSome (litClassPlus "EXT-X-PART-INF:PART-TARGET-DURATION=" isDigitDot) t with
    | some d =>
      some (match parseF32 d with
            | some q => .ok (some (Tag.extXPartInf q none))
            | none => .error panicMsg)
    | none => none

/-- The SERVER-CONTROL accumulator after the whole `captures_iter` loop. -/
def scStateOf (t : List Char) : SCState :=
  (scanAttrs t).foldl scUpd scInit

def bodyServerControl (t : List Char) : PLRes :=
  bif scAny (scStateOf t) then
    some (.ok (some (Tag.extXServerControl (scStateOf t).canPlay (scStateOf t).canSeek
      (scStateOf t).canPause (scStateOf t).minBufferTime (scStateOf t).canBlockReload
      (scStateOf t).partHoldBack (scStateOf t).canSkipUntil)))
  else none

def bodySkip (t : List Char) : PLRes :=
  let st := (scanAttrsQ t).foldl skipUpd (none, none)
  match st.1 with
  | some n => some (.ok (some (Tag.extXSkip n st.2)))
  | none => none

def bodyStart (t : List Char) : PLRes :=
  (firstSome startHere t).map
    (fun p => .ok (some (Tag.extXStart p.1.asString (some (p.2.asString == "YES")))))

def bodyIndependentSegments (_ : List Char) : PLRes :=
  some (.ok (some Tag.extXIndependentSegments))

def bodyStreamInf (t : List Char) : PLRes :=
  (firstSome streamInfHere t).map
    (fun c => .ok (some (Tag.extXStreamInf (natOfDigits c.1) (some c.2.1.asString)
      (some c.2.2.asString) none none none none none)))

def bodyMedia (t : List Char) : PLRes :=
  (firstSome mediaHere t).map
    (fun c =>
      match c.g3, c.g4, c.g5, c.g6, c.g7, c.g8, c.g9, c.g10, c.g11 with
      | some n, some la, some df, some asel, some u, some ch, some lc, some ii, some f =>
        -- Field assignment mirrors the source, which reads group 8 (the
        -- CHARACTERISTICS capture) into `instream_id` and group 10 (the
        -- INSTREAM-ID capture) into `characteristics`.
        .ok (some (Tag.extXMedia c.g1.asString c.g2.asString (some n.asString)
          (some la.asString) (some ch.asString) (some lc.asString) (some df)
          (some asel) (some ii.asString) (some u.asString) (some f)))
      | _, _, _, _, _, _, _, _, _ => .error panicMsg)

def bodyRenditionReport (t : List Char) : PLRes :=
  (firstSome renditionHere t).map
    (fun p => .ok (some (Tag.extXRenditionReport p.1.asString (natOfDigits p.2))))

def bodyByteRange (t : List Char) : PLRes :=
  (firstSome (litClassPlus "EXT-X-BYTERANGE:" (fun c => !(rustWs c))) t).map
    (fun d => .ok (some (Tag.extXByteRange d.asString)))

def bodyIFrame (t : List Char) : PLRes :=
  (firstSome iframeHere t).map
    (fun p => .ok (some (Tag.extXIFrameStreamInf (natOfDigits p.1) none none none
      p.2.asString)))

def bodySessionData (t : List Char) : PLRes :=
  (firstSome sessionDataHere t).map
    (fun c => .ok (some (Tag.extXSessionData c.1.asString c.2.1.asString
      (some c.2.2.asString))))

def bodyPreloadHint (t : List Char) : PLRes :=
  (firstSome preloadHere t).map
    (fun p => .ok (some (Tag.extXPreloadHint none p.1.asString (some p.2.asString))))

def trimBoth (cs : List Char) : List Char :=
  ((cs.dropWhile rustWs).reverse.dropWhile rustWs).reverse

def bodyExtInf (t : List Char) : PLRes :=
  (firstSome extinfHere t).map
    (fun c =>
      match parseF32 c.1 with
      | none => .error panicMsg
      | some q =>
        let title := (trimBoth c.2.1).asString
        let seg := (trimBoth c.2.2).asString
        if title = "" then .ok (some (Tag.extInf seg q none))
        else .ok (some (Tag.extInf seg q (some title))))

def bodySessionKey (t : List Char) : PLRes :=
  (firstSome sessionKeyHere t).map
    (fun c => .ok (some (Tag.extXSessionKey c.1.asString (some c.2.1.asString)
      (some c.2.2.asString))))

/-- One `if trimmed.starts_with(kw) { ... }` block: the body runs only under
the keyword guard, and `none` falls through to the next block. -/
def guarded (kw : String) (body : List Char → PLRes) (t : List Char) : PLRes :=
  bif kw.toList.isPrefixOf t then body t else none

/-- The blocks of `parse_line`, in source order. -/
def branchList : List (List Char → PLRes) :=
  [guarded "EXTM3U" bodyM3U,
   guarded "EXT-X-VERSION" bodyVersion,
   guarded "EXT-X-TARGETDURATION" bodyTargetDuration,
   guarded "EXT-X-PLAYLIST-TYPE" bodyPlaylistType,
   guarded "EXT-X-MEDIA-SEQUENCE" bodyMediaSequence,
   guarded "EXT-X-DISCONTINUITY-SEQUENCE" bodyDiscontinuitySequence,
   guarded "EXT-X-ENDLIST" bodyEndList,
   guarded "EXT-X-KEY" bodyKey,
   guarded "EXT-X-MAP" bodyMap,
   guarded "EXT-X-PROGRAM-DATE-TIME" bodyProgramDateTime,
   guarded "EXT-X-DISCONTINUITY" bodyDiscontinuity,
   guarded "EXT-X-PART" bodyPart,
   guarded "EXT-X-PART-INF" bodyPartInf,
   guarded "EXT-X-SERVER-CONTROL" bodyServerControl,
   guarded "EXT-X-SKIP" bodySkip,
   guarded "EXT-X-START" bodyStart,
   guarded "EXT-X-INDEPENDENT-SEGMENTS" bodyIndependentSegments,
   guarded "EXT-X-STREAM-INF" bodyStreamInf,
   guarded "EXT-X-MEDIA" bodyMedia,
   guarded "EXT-X-RENDITION-REPORT" bodyRenditionReport,
   guarded "EXT-X-BYTERANGE" bodyByteRange,
   guarded "EXT-X-I-FRAME-STREAM-INF" bodyIFrame,
   guarded "EXT-X-SESSION-DATA" bodySessionData,
   guarded "EXT-X-PRELOAD-HINT" bodyPreloadHint,
   guarded "EXTINF" bodyExtInf,
   guarded "EXT-X-SESSION-KEY" bodySessionKey]

/-- `Playlist::parse_line` on an already trimmed candidate line. -/
def parseCore (t : List Char) : Except String (Option Tag) :=
  (branchList.findSome? (fun b => b t)).getD (.ok none)

/-- `Playlist::parse_line` (the source trims its argument first). -/
def parseLine (cs : List Char) : Except String (Option Tag) :=
  parseCore (trimBoth cs)

/-! ## `from_reader` -/

/-- Rust `str::split("#")` (keeps empty pieces, including a leading one). -/
def splitHash : List Char → List (List Char)
  | [] => [[]]
  | c :: r =>
    if c = '#' then [] :: splitHash r
    else
      match splitHash r with
      | [] => [[c]]
      | p :: ps => (c :: p) :: ps

/-- The `for line in content.split("#")` loop of `from_reader`. -/
def collectTags : List (List Char) → Except String (List Tag)
  | [] => .ok []
  | l :: ls =>
    if l.isEmpty then collectTags ls
    else
      match parseLine l with
      | .error e => .error e
      | .ok none => collectTags ls
      | .ok (some tg) =>
        match collectTags ls with
        | .error e => .error e
        | .ok ts => .ok (tg :: ts)

/-- `Playlist::from_reader` on the in-memory content (I/O stripped). -/
def fromReader (cs : List Char) : Except String (List Tag) :=
  collectTags (splitHash cs)

def fromReaderStr (s : String) : Except String (List Tag) :=
  fromReader s.toList

/-! ## `validate` -/

def isExtM3U : Tag → Bool
  | Tag.extM3U => true
  | _ => false

/-- `Playlist::validate_tag`: the errors pushed for one tag. -/
def validateTagErrors : Tag → List ValidationError
  | Tag.extXVersion v =>
    if v < 1 || v > 7 then [ValidationError.invalidVersion v] else []
  | Tag.extInf _ d _ =>
    if d ≤ 0 then [ValidationError.invalidDuration d] else []
  | Tag.extXTargetDuration d =>
    if d = 0 then [ValidationError.invalidTargetDuration d] else []
  | Tag.extXKey m _ _ _ _ =>
    if m = "NONE" || m = "AES-128" || m = "SAMPLE-AES" then []
    else [ValidationError.invalidKeyMethod m]
  | Tag.extXMap u _ =>
    if u = "" then [ValidationError.invalidMapUri] else []
  | Tag.extXProgramDateTime dt =>
    if dt = "" then [ValidationError.invalidProgramDateTime] else []
  | Tag.extXBitrate b =>
    if b < 0 then [ValidationError.invalidBitrate b] else []
  | Tag.extXStart off _ =>
    if off = "" then [ValidationError.invalidStartOffset] else []
  | Tag.extXSkip n _ =>
    if n = 0 then [ValidationError.invalidSkipTag "SKIPPED-SEGMENTS must be positive"] else []
  | Tag.extXPreloadHint _ u _ =>
    if u = "" then [ValidationError.invalidPreloadHintUri] else []
  | Tag.extXRenditionReport u _ =>
    if u = "" then [ValidationError.invalidRenditionReportUri] else []
  | _ => []

def errList : List Tag → List ValidationError
  | [] => []
  | t :: ts => validateTagErrors t ++ errList ts

/-- `Playlist::validate`, as the accumulated error list (the source returns
`Ok(())` exactly when this list is empty, `Err(errors)` otherwise). -/
def validate (p : Playlist) : List ValidationError :=
  (if p.tags.any isExtM3U then [] else [ValidationError.missingExtM3U]) ++ errList p.tags

/-! ## Serializer (modelled from the spec) -/

/-- Decimal digits of the fractional part of a rational in `[0,1)`. -/
def fracDigits : Nat → ℚ → String
  | 0, _ => ""
  | n + 1, q =>
    if q = 0 then ""
    else
      let x := q * 10
      let d : Int := ⌊x⌋
      toString d ++ fracDigits n (x - (d : ℚ))

/-- Decimal rendering of a (nonnegative, finite-decimal) rational duration. -/
def renderRat (q : ℚ) : String :=
  let i : Int := ⌊q⌋
  let fr : ℚ := q - (i : ℚ)
  if fr = 0 then toString i else toString i ++ "." ++ fracDigits 9 fr

/-- Render an optional unquoted attribute. -/
def optAttr (kw : String) : Option String → String
  | none => ""
  | some v => kw ++ v

/-- Render an optional quoted attribute. -/
def optAttrQ (kw : String) : Option String → String
  | none => ""
  | some v => kw ++ "\"" ++ v ++ "\""

def yesNoStr (b : Bool) : String := if b then "YES" else "NO"

def optAttrB (kw : String) : Option Bool → String
  | none => ""
  | some b => kw ++ yesNoStr b

def optAttrR (kw : String) : Option ℚ → String
  | none => ""
  | some q => kw ++ renderRat q

/-- Modelled from the spec: the serializer (`Display for Tag`, in the tags
module, which is not under `src/`) renders each variant as its canonical
directive line - marker and keyword, positional payload or attribute list,
emitting only attributes that are present, quoting string-valued attributes,
in a stable key order; segment-info renders as the directive line followed by
the URI line. -/
def render : Tag → String
  | Tag.extM3U => "#EXTM3U"
  | Tag.extXVersion v => "#EXT-X-VERSION:" ++ toString v
  | Tag.extXTargetDuration d => "#EXT-X-TARGETDURATION:" ++ toString d
  | Tag.extXPlaylistType t => "#EXT-X-PLAYLIST-TYPE:" ++ t
  | Tag.extXMediaSequence n => "#EXT-X-MEDIA-SEQUENCE:" ++ toString n
  | Tag.extXDiscontinuitySequence n => "#EXT-X-DISCONTINUITY-SEQUENCE:" ++ toString n
  | Tag.extXEndList => "#EXT-X-ENDLIST"
  | Tag.extXKey m u iv kf kfv =>
    "#EXT-X-KEY:METHOD=" ++ m ++ optAttrQ ",URI=" u ++ optAttrQ ",IV=" iv ++
      optAttrQ ",KEYFORMAT=" kf ++ optAttrQ ",KEYFORMATVERSIONS=" kfv
  | Tag.extXMap u br => "#EXT-X-MAP:URI=\"" ++ u ++ "\"" ++ optAttrQ ",BYTERANGE=" br
  | Tag.extXProgramDateTime dt => "#EXT-X-PROGRAM-DATE-TIME:" ++ dt
  | Tag.extXDiscontinuity => "#EXT-X-DISCONTINUITY"
  | Tag.extXPart u d ind =>
    "#EXT-X-PART:URI=\"" ++ u ++ "\"" ++ optAttrR ",DURATION=" d ++
      optAttrB ",INDEPENDENT=" ind
  | Tag.extXPartInf ptd pn =>
    "#EXT-X-PART-INF:PART-TARGET=" ++ renderRat ptd ++
      optAttr ",PART-NUMBER=" (pn.map toString)
  | Tag.extXServerControl cp cs cpa mbt cbr phb csu =>
    "#EXT-X-SERVER-CONTROL:" ++
      String.intercalate ","
        (List.filter (fun s => s ≠ "")
          [(cp.map (fun b => "CAN-PLAY=" ++ yesNoStr b)).getD "",
           (cs.map (fun b => "CAN-SEEK=" ++ yesNoStr b)).getD "",
           (cpa.map (fun b => "CAN-PAUSE=" ++ yesNoStr b)).getD "",
           (mbt.map (fun q => "MIN-BUFFER-TIME=" ++ renderRat q)).getD "",
           (cbr.map (fun b => "CAN-BLOCK-RELOAD=" ++ yesNoStr b)).getD "",
           (phb.map (fun q => "PART-HOLD-BACK=" ++ renderRat q)).getD "",
           (csu.map (fun q => "CAN-SKIP-UNTIL=" ++ renderRat q)).getD ""])
  | Tag.extXSkip n rrd =>
    "#EXT-X-SKIP:SKIPPED-SEGMENTS=" ++ toString n ++
      optAttrQ ",RECENTLY-REMOVED-DATERANGES=" rrd
  | Tag.extXStart off pr => "#EXT-X-START:TIME-OFFSET=" ++ off ++ optAttrB ",PRECISE=" pr
  | Tag.extXIndependentSegments => "#EXT-X-INDEPENDENT-SEGMENTS"
  | Tag.extXStreamInf bw res cdc fr au vi su cc =>
    "#EXT-X-STREAM-INF:BANDWIDTH=" ++ toString bw ++ optAttr ",RESOLUTION=" res ++
      optAttrQ ",CODECS=" cdc ++ optAttrR ",FRAME-RATE=" fr ++ optAttrQ ",AUDIO=" au ++
      optAttrQ ",VIDEO=" vi ++ optAttrQ ",SUBTITLES=" su ++
      optAttrQ ",CLOSED-CAPTIONS=" cc
  | Tag.extXMedia ty gid nm la iid lcd df ap ch u fo =>
    "#EXT-X-MEDIA:TYPE=" ++ ty ++ ",GROUP-ID=\"" ++ gid ++ "\"" ++
      optAttrQ ",NAME=" nm ++ optAttrQ ",LANGUAGE=" la ++
      optAttrB ",DEFAULT=" df ++ optAttrB ",AUTOSELECT=" ap ++
      optAttrQ ",URI=" u ++ optAttr ",CHARACTERISTICS=" ch ++
      optAttrQ ",LANGUAGE-CODEC=" lcd ++ optAttrQ ",INSTREAM-ID=" iid ++
      optAttrB ",FORCED=" fo
  | Tag.extXRenditionReport u bw =>
    "#EXT-X-RENDITION-REPORT:URI=\"" ++ u ++ "\",BANDWIDTH=" ++ toString bw
  | Tag.extXByteRange r => "#EXT-X-BYTERANGE:" ++ r
  | Tag.extXIFrameStreamInf bw cdc res fr u =>
    "#EXT-X-I-FRAME-STREAM-INF:BANDWIDTH=" ++ toString bw ++ optAttrQ ",CODECS=" cdc ++
      optAttr ",RESOLUTION=" res ++ optAttrR ",FRAME-RATE=" fr ++
      ",URI=\"" ++ u ++ "\""
  | Tag.extXSessionData i v la =>
    "#EXT-X-SESSION-DATA:ID=\"" ++ i ++ "\",VALUE=\"" ++ v ++ "\"" ++
      optAttrQ ",LANGUAGE=" la
  | Tag.extXPreloadHint ty u br =>
    "#EXT-X-PRELOAD-HINT:" ++ optAttr "TYPE=" ty ++ "URI=\"" ++ u ++ "\"" ++
      optAttrQ ",BYTERANGE=" br
  | Tag.extInf seg d ti =>
    "#EXTINF:" ++ renderRat d ++ "," ++ ti.getD "" ++ "\n" ++ seg
  | Tag.extXSessionKey m u iv =>
    "#EXT-X-SESSION-KEY:METHOD=" ++ m ++ optAttrQ ",URI=" u ++ optAttrQ ",IV=" iv
  | Tag.extXGap => "#EXT-X-GAP"
  | Tag.extXBitrate b => "#EXT-X-BITRATE:" ++ toString b

/-- `Playlist::write_to_file` body: `writeln!` of each rendered tag. -/
def renderPlaylist (p : Playlist) : String :=
  String.join (p.tags.map (fun t => render t ++ "\n"))

deriving instance DecidableEq for Except

/-! ## Helper lemmas -/

theorem pfxSelfAppend (a b : List Char) : a.isPrefixOf (a ++ b) = true := by
  induction a with
  | nil => simp [List.isPrefixOf]
  | cons x xs ih => simp [List.isPrefixOf, List.cons_append, ih]

theorem pfxTransAppend (kw c r : List Char) (h : kw.isPrefixOf c = true) :
    kw.isPrefixOf (c ++ r) = true := by
  induction kw generalizing c with
  | nil => simp [List.isPrefixOf]
  | cons x xs ih =>
    cases c with
    | nil => exact absurd h (by simp [List.isPrefixOf])
    | cons y ys =>
      simp only [List.isPrefixOf, Bool.and_eq_true] at h
      simp [List.cons_append, List.isPrefixOf, h.1, ih ys h.2]

theorem pfxTakeOfPfxAppend (kw c r : List Char) (h : kw.isPrefixOf (c ++ r) = true) :
    (kw.take c.length).isPrefixOf c = true := by
  induction kw generalizing c with
  | nil => simp [List.isPrefixOf]
  | cons x xs ih =>
    cases c with
    | nil => simp [List.isPrefixOf]
    | cons y ys =>
      simp only [List.cons_append, List.isPrefixOf, Bool.and_eq_true] at h
      simp [List.length, List.take, List.isPrefixOf, h.1, ih ys h.2]

theorem pfxAppendFalse (kw c r : List Char)
    (h : (kw.take c.length).isPrefixOf c = false) :
    kw.isPrefixOf (c ++ r) = false := by
  cases hb : kw.isPrefixOf (c ++ r)
  · rfl
  · exact absurd (pfxTakeOfPfxAppend kw c r hb) (by simp [h])

theorem takeWhileAppend (p : Char → Bool) (a b : List Char)
    (h : ∀ x ∈ a, p x = true) :
    (a ++ b).takeWhile p = a ++ b.takeWhile p := by
  induction a with
  | nil => rfl
  | cons x xs ih =>
    have hx : p x = true := h x (List.mem_cons_self x xs)
    simp [List.takeWhile, hx, ih (fun y hy => h y (List.mem_cons_of_mem x hy))]

theorem dropWhileAppend (p : Char → Bool) (a b : List Char)
    (h : ∀ x ∈ a, p x = true) :
    (a ++ b).dropWhile p = b.dropWhile p := by
  induction a with
  | nil => rfl
  | cons x xs ih =>
    have hx : p x = true := h x (List.mem_cons_self x xs)
    simp [List.dropWhile, hx, ih (fun y hy => h y (List.mem_cons_of_mem x hy))]

theorem litSelfAppend (p r : List Char) : lit p (p ++ r) = some r := by
  simp [lit, pfxSelfAppend, List.drop_left]

theorem firstSomeOfSome (m : List Char → Option α) (t : List Char) (r : α)
    (h : m t = some r) : firstSome m t = some r := by
  cases t with
  | nil => simpa [firstSome] using h
  | cons c cs => simp [firstSome, h]

theorem quotedPlusEval (uri tl : List Char) (h1 : uri ≠ [])
    (h2 : ∀ c ∈ uri, (c != '"') = true) :
    quotedPlus (uri ++ '"' :: tl) = some (uri, tl) := by
  have ht : (uri ++ '"' :: tl).takeWhile (fun c => c != '"') = uri := by
    rw [takeWhileAppend _ _ _ h2]
    simp [List.takeWhile]
  have hd : (uri ++ '"' :: tl).dropWhile (fun c => c != '"') = '"' :: tl := by
    rw [dropWhileAppend _ _ _ h2]
    simp [List.dropWhile]
  unfold quotedPlus
  rw [ht, hd]
  cases uri with
  | nil => exact absurd rfl h1
  | cons u ut => simp

theorem mapHereEval (uri tl : List Char) (h1 : uri ≠ [])
    (h2 : ∀ c ∈ uri, c ≠ '"') :
    mapHere ("EXT-X-MAP:URI=\"".toList ++ (uri ++ '"' :: tl))
      = some (uri, mapByte tl) := by
  have h2b : ∀ c ∈ uri, (c != '"') = true := by
    intro c hc
    simpa using h2 c hc
  have hlit : lit "EXT-X-MAP:URI=\"".toList
      ("EXT-X-MAP:URI=\"".toList ++ (uri ++ '"' :: tl)) = some (uri ++ '"' :: tl) :=
    litSelfAppend _ _
  unfold mapHere
  simp only [hlit, quotedPlusEval uri tl h1 h2b]

theorem parseCoreMapLine (uri tl : List Char) (h1 : uri ≠ [])
    (h2 : ∀ c ∈ uri, c ≠ '"') (hbr : mapByte tl = none) :
    parseCore ("EXT-X-MAP:URI=\"".toList ++ (uri ++ '"' :: tl))
      = .ok (some (Tag.extXMap uri.asString none)) := by
  have g1 : "EXTM3U".toList.isPrefixOf ("EXT-X-MAP:URI=\"".toList ++ (uri ++ '"' :: tl))
      = false := pfxAppendFalse _ _ _ (by decide)
  have g2 : "EXT-X-VERSION".toList.isPrefixOf ("EXT-X-MAP:URI=\"".toList ++ (uri ++ '"' :: tl))
      = false := pfxAppendFalse _ _ _ (by decide)
  have g3 : "EXT-X-TARGETDURATION".toList.isPrefixOf ("EXT-X-MAP:URI=\"".toList ++ (uri ++ '"' :: tl))
      = false := pfxAppendFalse _ _ _ (by decide)
  have g4 : "EXT-X-PLAYLIST-TYPE".toList.isPrefixOf ("EXT-X-MAP:URI=\"".toList ++ (uri ++ '"' :: tl))
      = false := pfxAppendFalse _ _ _ (by decide)
  have g5 : "EXT-X-MEDIA-SEQUENCE".toList.isPrefixOf ("EXT-X-MAP:URI=\"".toList ++ (uri ++ '"' :: tl))
      = false := pfxAppendFalse _ _ _ (by decide)
  have g6 : "EXT-X-DISCONTINUITY-SEQUENCE".toList.isPrefixOf ("EXT-X-MAP:URI=\"".toList ++ (uri ++ '"' :: tl))
      = false := pfxAppendFalse _ _ _ (by decide)
  have g7 : "EXT-X-ENDLIST".toList.isPrefixOf ("EXT-X-MAP:URI=\"".toList ++ (uri ++ '"' :: tl))
      = false := pfxAppendFalse _ _ _ (by decide)
  have g8 : "EXT-X-KEY".toList.isPrefixOf ("EXT-X-MAP:URI=\"".toList ++ (uri ++ '"' :: tl))
      = false := pfxAppendFalse _ _ _ (by decide)
  have g9 : "EXT-X-MAP".toList.isPrefixOf ("EXT-X-MAP:URI=\"".toList ++ (uri ++ '"' :: tl))
      = true := pfxTransAppend _ _ _ (by decide)
  have hm : bodyMap ("EXT-X-MAP:URI=\"".toList ++ (uri ++ '"' :: tl))
      = some (.ok (some (Tag.extXMap uri.asString none))) := by
    have h := mapHereEval uri tl h1 h2
    rw [hbr] at h
    have hfs := firstSomeOfSome mapHere _ _ h
    simp only [bodyMap, hfs, Option.map_some']
  simp only [parseCore, branchList, List.findSome?, guarded, Bool.cond_false,
    Bool.cond_true, g1, g2, g3, g4, g5, g6, g7, g8, g9, hm, Option.getD]

theorem scAnyScUpd (st : SCState) (kv : String × String) :
    scAny (scUpd st kv) = (scAny st || recognizedSC kv) := by
  by_cases h1 : kv.1 = "CAN-PLAY"
  · simp [scUpd, recognizedSC, scAny, h1]
  by_cases h2 : kv.1 = "CAN-SEEK"
  · simp [scUpd, recognizedSC, scAny, h1, h2]
  by_cases h3 : kv.1 = "CAN-PAUSE"
  · simp [scUpd, recognizedSC, scAny, h1, h2, h3]
  by_cases h4 : kv.1 = "MIN-BUFFER-TIME"
  · cases hp : parseF32 kv.2.data <;>
      simp [scUpd, recognizedSC, scAny, String.toList, h1, h2, h3, h4, hp]
  by_cases h5 : kv.1 = "CAN-BLOCK-RELOAD"
  · simp [scUpd, recognizedSC, scAny, h1, h2, h3, h4, h5]
  by_cases h6 : kv.1 = "PART-HOLD-BACK"
  · cases hp : parseF32 kv.2.data <;>
      simp [scUpd, recognizedSC, scAny, String.toList, h1, h2, h3, h4, h5, h6, hp]
  by_cases h7 : kv.1 = "CAN-SKIP-UNTIL"
  · cases hp : parseF32 kv.2.data <;>
      simp [scUpd, recognizedSC, scAny, String.toList, h1, h2, h3, h4, h5, h6, h7, hp]
  · simp [scUpd, recognizedSC, scAny, h1, h2, h3, h4, h5, h6, h7]

theorem scAnyFoldl (caps : List (String × String)) (st : SCState) :
    scAny (caps.foldl scUpd st) = (scAny st || caps.any recognizedSC) := by
  induction caps generalizing st with
  | nil => simp
  | cons kv rest ih =>
    simp [List.foldl, List.any, ih (scUpd st kv), scAnyScUpd, Bool.or_assoc]

theorem parseCoreServerControl (rest : List Char) :
    parseCore ("EXT-X-SERVER-CONTROL".toList ++ rest)
      = (bodyServerControl ("EXT-X-SERVER-CONTROL".toList ++ rest)).getD (.ok none) := by
  have g1 : "EXTM3U".toList.isPrefixOf ("EXT-X-SERVER-CONTROL".toList ++ rest)
      = false := pfxAppendFalse _ _ _ (by decide)
  have g2 : "EXT-X-VERSION".toList.isPrefixOf ("EXT-X-SERVER-CONTROL".toList ++ rest)
      = false := pfxAppendFalse _ _ _ (by decide)
  have g3 : "EXT-X-TARGETDURATION".toList.isPrefixOf ("EXT-X-SERVER-CONTROL".toList ++ rest)
      = false := pfxAppendFalse _ _ _ (by decide)
  have g4 : "EXT-X-PLAYLIST-TYPE".toList.isPrefixOf ("EXT-X-SERVER-CONTROL".toList ++ rest)
      = false := pfxAppendFalse _ _ _ (by decide)
  have g5 : "EXT-X-MEDIA-SEQUENCE".toList.isPrefixOf ("EXT-X-SERVER-CONTROL".toList ++ rest)
      = false := pfxAppendFalse _ _ _ (by decide)
  have g6 : "EXT-X-DISCONTINUITY-SEQUENCE".toList.isPrefixOf ("EXT-X-SERVER-CONTROL".toList ++ rest)
      = false := pfxAppendFalse _ _ _ (by decide)
  have g7 : "EXT-X-ENDLIST".toList.isPrefixOf ("EXT-X-SERVER-CONTROL".toList ++ rest)
      = false := pfxAppendFalse _ _ _ (by decide)
  have g8 : "EXT-X-KEY".toList.isPrefixOf ("EXT-X-SERVER-CONTROL".toList ++ rest)
      = false := pfxAppendFalse _ _ _ (by decide)
  have g9 : "EXT-X-MAP".toList.isPrefixOf ("EXT-X-SERVER-CONTROL".toList ++ rest)
      = false := pfxAppendFalse _ _ _ (by decide)
  have g10 : "EXT-X-PROGRAM-DATE-TIME".toList.isPrefixOf ("EXT-X-SERVER-CONTROL".toList ++ rest)
      = false := pfxAppendFalse _ _ _ (by decide)
  have g11 : "EXT-X-DISCONTINUITY".toList.isPrefixOf ("EXT-X-SERVER-CONTROL".toList ++ rest)
      = false := pfxAppendFalse _ _ _ (by decide)
  have g12 : "EXT-X-PART".toList.isPrefixOf ("EXT-X-SERVER-CONTROL".toList ++ rest)
      = false := pfxAppendFalse _ _ _ (by decide)
  have g13 : "EXT-X-PART-INF".toList.isPrefixOf ("EXT-X-SERVER-CONTROL".toList ++ rest)
      = false := pfxAppendFalse _ _ _ (by decide)
  have gsc : "EXT-X-SERVER-CONTROL".toList.isPrefixOf ("EXT-X-SERVER-CONTROL".toList ++ rest)
      = true := pfxSelfAppend _ _
  have g15 : "EXT-X-SKIP".toList.isPrefixOf ("EXT-X-SERVER-CONTROL".toList ++ rest)
      = false := pfxAppendFalse _ _ _ (by decide)
  have g16 : "EXT-X-START".toList.isPrefixOf ("EXT-X-SERVER-CONTROL".toList ++ rest)
      = false := pfxAppendFalse _ _ _ (by decide)
  have g17 : "EXT-X-INDEPENDENT-SEGMENTS".toList.isPrefixOf ("EXT-X-SERVER-CONTROL".toList ++ rest)
      = false := pfxAppendFalse _ _ _ (by decide)
  have g18 : "EXT-X-STREAM-INF".toList.isPrefixOf ("EXT-X-SERVER-CONTROL".toList ++ rest)
      = false := pfxAppendFalse _ _ _ (by decide)
  have g19 : "EXT-X-MEDIA".toList.isPrefixOf ("EXT-X-SERVER-CONTROL".toList ++ rest)
      = false := pfxAppendFalse _ _ _ (by decide)
  have g20 : "EXT-X-RENDITION-REPORT".toList.isPrefixOf ("EXT-X-SERVER-CONTROL".toList ++ rest)
      = false := pfxAppendFalse _ _ _ (by decide)
  have g21 : "EXT-X-BYTERANGE".toList.isPrefixOf ("EXT-X-SERVER-CONTROL".toList ++ rest)
      = false := pfxAppendFalse _ _ _ (by decide)
  have g22 : "EXT-X-I-FRAME-STREAM-INF".toList.isPrefixOf ("EXT-X-SERVER-CONTROL".toList ++ rest)
      = false := pfxAppendFalse _ _ _ (by decide)
  have g23 : "EXT-X-SESSION-DATA".toList.isPrefixOf ("EXT-X-SERVER-CONTROL".toList ++ rest)
      = false := pfxAppendFalse _ _ _ (by decide)
  have g24 : "EXT-X-PRELOAD-HINT".toList.isPrefixOf ("EXT-X-SERVER-CONTROL".toList ++ rest)
      = false := pfxAppendFalse _ _ _ (by decide)
  have g25 : "EXTINF".toList.isPrefixOf ("EXT-X-SERVER-CONTROL".toList ++ rest)
      = false := pfxAppendFalse _ _ _ (by decide)
  have g26 : "EXT-X-SESSION-KEY".toList.isPrefixOf ("EXT-X-SERVER-CONTROL".toList ++ rest)
      = false := pfxAppendFalse _ _ _ (by decide)
  cases hb : bodyServerControl ("EXT-X-SERVER-CONTROL".toList ++ rest) with
  | some r =>
    simp only [parseCore, branchList, List.findSome?, guarded, Bool.cond_false,
      Bool.cond_true, g1, g2, g3, g4, g5, g6, g7, g8, g9, g10, g11, g12, g13, gsc, hb,
      Option.getD]
  | none =>
    simp only [parseCore, branchList, List.findSome?, guarded, Bool.cond_false,
      Bool.cond_true, g1, g2, g3, g4, g5, g6, g7, g8, g9, g10, g11, g12, g13, gsc,
      g15, g16, g17, g18, g19, g20, g21, g22, g23, g24, g25, g26, hb, Option.getD]

theorem memErrList (t : Tag) (ts : List Tag) (e : ValidationError)
    (ht : t ∈ ts) (he : e ∈ validateTagErrors t) : e ∈ errList ts := by
  induction ts with
  | nil => cases ht
  | cons s ss ih =>
    rcases List.mem_cons.mp ht with h | h
    · exact List.mem_append_left _ (h ▸ he)
    · exact List.mem_append_right _ (ih h)

theorem errListNilIff (ts : List Tag) :
    errList ts = [] ↔ ∀ t ∈ ts, validateTagErrors t = [] := by
  induction ts with
  | nil => simp [errList]
  | cons s ss ih => simp [errList, ih]

/-! ## Claim theorems -/

/-- Claim C1 (code bug): the round-trip property `parse(render(t)) == t` fails
on the code: the gap-marker tag renders to its canonical directive line
`#EXT-X-GAP`, but `parse_line` has no branch for it (while `validate_tag`
handles `Tag::ExtXGap`), so serializing the one-tag playlist and re-parsing
yields the empty playlist, not an equal one. -/
theorem c1_roundtrip_gap_fails :
    fromReaderStr (renderPlaylist ⟨[Tag.extXGap]⟩) = .ok []
  ∧ fromReaderStr (renderPlaylist ⟨[Tag.extXGap]⟩) ≠ .ok [Tag.extXGap] := by
  constructor
  · decide
  · decide

/-- Claim C2 (code bug): `from_reader` segments the input with a bare
`content.split("#")`; a `#` inside a double-quoted URI therefore splits the
EXT-X-MAP line in two unparseable pieces and the map tag is silently lost,
whereas the same input without the marker character in the quoted value
parses to the map tag followed by the end-of-list tag. -/
theorem c2_split_ignores_quoting :
    fromReaderStr "#EXT-X-MAP:URI=\"seg#1.mp4\"\n#EXT-X-ENDLIST" = .ok [Tag.extXEndList]
  ∧ fromReaderStr "#EXT-X-MAP:URI=\"seg1.mp4\"\n#EXT-X-ENDLIST"
      = .ok [Tag.extXMap "seg1.mp4" none, Tag.extXEndList] := by
  constructor
  · decide
  · decide

/-- Claim C3 (code bug): attribute order is not irrelevant: the EXT-X-KEY
pattern demands `METHOD=` then `URI=` in that fixed order, so the permuted
encoding of the same tag parses to no tag at all instead of an equal tag. -/
theorem c3_attribute_order_sensitive :
    parseCore ("EXT-X-KEY:METHOD=AES-128,URI=\"k.bin\"".toList)
      = .ok (some (Tag.extXKey "AES-128" (some "k.bin") none none none))
  ∧ parseCore ("EXT-X-KEY:URI=\"k.bin\",METHOD=AES-128".toList) = .ok none := by
  constructor
  · decide
  · decide

/-- Claim C4 (code bug): parsing is not total on decodable text: the EXT-X-PART
branch captures `[\d\.]+` and then `parse::<f32>().unwrap()`s it, so the
single malformed line `#EXT-X-PART:URI="x",DURATION=.` panics (modelled as
`Except.error panicMsg`) and aborts the whole parse instead of being reported
as one bad line; no count or list of unrecognized lines is produced on any
path. -/
theorem c4_malformed_line_panics :
    fromReaderStr "#EXT-X-PART:URI=\"x\",DURATION=." = .error panicMsg := by
  decide

/-- Claim C5 (code bug): the five-line scenario input does parse to 5 tags and
validates with zero errors, but the segment-info tag is wrong: the EXTINF
pattern's lazy title group matches empty and the greedy `(\S+)` stops at the
newline, so the parsed tag is `ExtInf(segment := "Title", title := None)` -
the URI line `segment1.ts` is dropped - instead of
`ExtInf(segment := "segment1.ts", title := Some "Title")`. -/
theorem c5_scenario_wrong_extinf :
    fromReaderStr "#EXTM3U\n#EXT-X-VERSION:3\n#EXT-X-TARGETDURATION:10\n#EXTINF:9.5,Title\nsegment1.ts\n#EXT-X-ENDLIST"
      = .ok [Tag.extM3U, Tag.extXVersion 3, Tag.extXTargetDuration 10,
             Tag.extInf "Title" (mkRat 19 2) none, Tag.extXEndList]
  ∧ validate ⟨[Tag.extM3U, Tag.extXVersion 3, Tag.extXTargetDuration 10,
               Tag.extInf "Title" (mkRat 19 2) none, Tag.extXEndList]⟩ = []
  ∧ Tag.extInf "Title" (mkRat 19 2) none
      ≠ Tag.extInf "segment1.ts" (mkRat 19 2) (some "Title") := by
  refine ⟨by decide, by decide, by decide⟩

/-- Claim C6 (confirmed): `validate` is a total function that accumulates the
global rule and every per-tag rule violation: any error that `validate_tag`
produces for any tag of the playlist is in the returned list (no
short-circuiting), and the list is empty exactly when the stream marker is
present and no tag violates its rule. -/
theorem c6_validate_exhaustive (p : Playlist) :
    (∀ t, t ∈ p.tags → ∀ e, e ∈ validateTagErrors t → e ∈ validate p)
  ∧ (validate p = []
      ↔ (p.tags.any isExtM3U = true ∧ ∀ t ∈ p.tags, validateTagErrors t = [])) := by
  constructor
  · intro t ht e he
    exact List.mem_append_right _ (memErrList t p.tags e ht he)
  · unfold validate
    cases h : p.tags.any isExtM3U <;> simp [h, errListNilIff]

/-- Witness for C6 at a playlist with two independent violations of different
kinds: both appear in the returned list. -/
theorem c6_validate_exhaustive_witness :
    ValidationError.invalidVersion 99
      ∈ validate ⟨[Tag.extXVersion 99, Tag.extXSkip 0 none]⟩
  ∧ ValidationError.invalidSkipTag "SKIPPED-SEGMENTS must be positive"
      ∈ validate ⟨[Tag.extXVersion 99, Tag.extXSkip 0 none]⟩ :=
  ⟨(c6_validate_exhaustive ⟨[Tag.extXVersion 99, Tag.extXSkip 0 none]⟩).1
      (Tag.extXVersion 99) (by decide) (ValidationError.invalidVersion 99) (by decide),
   (c6_validate_exhaustive ⟨[Tag.extXVersion 99, Tag.extXSkip 0 none]⟩).1
      (Tag.extXSkip 0 none) (by decide)
      (ValidationError.invalidSkipTag "SKIPPED-SEGMENTS must be positive") (by decide)⟩

/-- Claim C7 (counterexample): `#EXT-X-VERSION:99` does parse to version 99,
but validating the resulting playlist does not yield exactly the one violation
`InvalidVersion(99)`: the global stream-marker rule also fires, so
`MissingExtM3U` is in the list as well. -/
theorem c7_counterexample :
    fromReaderStr "#EXT-X-VERSION:99" = .ok [Tag.extXVersion 99]
  ∧ ValidationError.missingExtM3U ∈ validate ⟨[Tag.extXVersion 99]⟩
  ∧ validate ⟨[Tag.extXVersion 99]⟩ ≠ [ValidationError.invalidVersion 99] := by
  refine ⟨by decide, by decide, by decide⟩

/-- Claim C7 (amended): `#EXT-X-VERSION:99` parses to version 99 and validates
with exactly two violations, `MissingExtM3U` and `InvalidVersion(99)`. -/
theorem c7_amended :
    fromReaderStr "#EXT-X-VERSION:99" = .ok [Tag.extXVersion 99]
  ∧ validate ⟨[Tag.extXVersion 99]⟩
      = [ValidationError.missingExtM3U, ValidationError.invalidVersion 99] := by
  refine ⟨by decide, by decide⟩

/-- Claim C8 (counterexample): dispatch is not extensionally
longest-match-first: the line `EXT-X-DISCONTINUITY-SEQUENCE:x`, whose leading
keyword is the longer directive, fails the longer directive's numeric pattern
and falls through to the shorter `EXT-X-DISCONTINUITY` rule, parsing to the
shorter directive's tag. -/
theorem c8_counterexample :
    parseCore ("EXT-X-DISCONTINUITY-SEQUENCE:x".toList)
      = .ok (some Tag.extXDiscontinuity) := by
  decide

/-- Claim C8 (amended): when the longer directive's payload matches its
grammar, the more specific rule wins - `EXT-X-PART-INF:PART-TARGET=5.0`
parses to the part-info tag (never the EXT-X-PART rule, whose pattern cannot
match a PART-INF line), and a well-formed discontinuity-sequence line parses
to the longer directive's tag - but a longer-keyword line whose payload fails
the longer grammar may fall through to a shorter prefix directive's rule. -/
theorem c8_amended :
    parseCore ("EXT-X-PART-INF:PART-TARGET=5.0".toList)
      = .ok (some (Tag.extXPartInf (mkRat 5 1) none))
  ∧ parseCore ("EXT-X-DISCONTINUITY-SEQUENCE:7".toList)
      = .ok (some (Tag.extXDiscontinuitySequence 7)) := by
  refine ⟨by decide, by decide⟩

/-- Claim C9 (confirmed): for every nonempty quote-free URI, the EXT-X-MAP
line with `BYTERANGE=""` parses to exactly the same tag as the line with
BYTERANGE omitted - the map tag with `byterange = None`; an empty BYTERANGE
is never stored as an empty-string value (the optional `[^"]+` group cannot
match the empty value, and the source additionally maps an empty capture to
`None`). -/
theorem c9_empty_byterange (uri : List Char) (h1 : uri ≠ [])
    (h2 : ∀ c ∈ uri, c ≠ '"') :
    parseCore ("EXT-X-MAP:URI=\"".toList ++ (uri ++ '"' :: ",BYTERANGE=\"\"".toList))
      = parseCore ("EXT-X-MAP:URI=\"".toList ++ (uri ++ '"' :: []))
  ∧ parseCore ("EXT-X-MAP:URI=\"".toList ++ (uri ++ '"' :: []))
      = .ok (some (Tag.extXMap uri.asString none)) := by
  have e1 := parseCoreMapLine uri (",BYTERANGE=\"\"".toList) h1 h2 (by decide)
  have e2 := parseCoreMapLine uri [] h1 h2 (by decide)
  exact ⟨e1.trans e2.symm, e2⟩

/-- Witness for C9 at the concrete URI `init.mp4`. -/
theorem c9_empty_byterange_witness :
    parseCore ("EXT-X-MAP:URI=\"".toList ++ ("init.mp4".toList ++ '"' :: ",BYTERANGE=\"\"".toList))
      = parseCore ("EXT-X-MAP:URI=\"".toList ++ ("init.mp4".toList ++ '"' :: []))
  ∧ parseCore ("EXT-X-MAP:URI=\"".toList ++ ("init.mp4".toList ++ '"' :: []))
      = .ok (some (Tag.extXMap ("init.mp4".toList).asString none)) :=
  c9_empty_byterange "init.mp4".toList (by decide) (by decide)

/-- Claim C10 (confirmed): a trimmed line beginning with
`EXT-X-SERVER-CONTROL` parses to a server-control tag exactly when the
attribute scan finds at least one recognized attribute with a usable value
(any value for the boolean attributes, a parsable float for
MIN-BUFFER-TIME / PART-HOLD-BACK / CAN-SKIP-UNTIL); with no such attribute
the line yields no tag at all. -/
theorem c10_server_control (rest : List Char) :
    ((List.any (scanAttrs ("EXT-X-SERVER-CONTROL".toList ++ rest)) recognizedSC = true →
      ∃ cp cse cpa mbt cbr phb csu,
        parseCore ("EXT-X-SERVER-CONTROL".toList ++ rest)
          = .ok (some (Tag.extXServerControl cp cse cpa mbt cbr phb csu)))
  ∧ (List.any (scanAttrs ("EXT-X-SERVER-CONTROL".toList ++ rest)) recognizedSC = false →
      parseCore ("EXT-X-SERVER-CONTROL".toList ++ rest) = .ok none)) := by
  have hp := parseCoreServerControl rest
  constructor
  · intro h
    rw [hp]
    have hany : scAny (scStateOf ("EXT-X-SERVER-CONTROL".toList ++ rest)) = true := by
      unfold scStateOf
      rw [scAnyFoldl, h]
      simp [scAny, scInit]
    refine ⟨(scStateOf ("EXT-X-SERVER-CONTROL".toList ++ rest)).canPlay,
      (scStateOf ("EXT-X-SERVER-CONTROL".toList ++ rest)).canSeek,
      (scStateOf ("EXT-X-SERVER-CONTROL".toList ++ rest)).canPause,
      (scStateOf ("EXT-X-SERVER-CONTROL".toList ++ rest)).minBufferTime,
      (scStateOf ("EXT-X-SERVER-CONTROL".toList ++ rest)).canBlockReload,
      (scStateOf ("EXT-X-SERVER-CONTROL".toList ++ rest)).partHoldBack,
      (scStateOf ("EXT-X-SERVER-CONTROL".toList ++ rest)).canSkipUntil, ?_⟩
    simp only [bodyServerControl, hany, Bool.cond_true, Option.getD]
  · intro h
    rw [hp]
    have hany : scAny (scStateOf ("EXT-X-SERVER-CONTROL".toList ++ rest)) = false := by
      unfold scStateOf
      rw [scAnyFoldl, h]
      simp [scAny, scInit]
    simp only [bodyServerControl, hany, Bool.cond_false, Option.getD]

/-- Witness for C10: one line with a recognized attribute parses to a
server-control tag, one with no recognized attribute yields no tag. -/
theorem c10_server_control_witness :
    (∃ cp cse cpa mbt cbr phb csu,
      parseCore ("EXT-X-SERVER-CONTROL".toList ++ ":CAN-BLOCK-RELOAD=YES".toList)
        = .ok (some (Tag.extXServerControl cp cse cpa mbt cbr phb csu)))
  ∧ parseCore ("EXT-X-SERVER-CONTROL".toList ++ ":FOO=1".toList) = .ok none :=
  ⟨(c10_server_control ":CAN-BLOCK-RELOAD=YES".toList).1 (by decide),
   (c10_server_control ":FOO=1".toList).2 (by decide)⟩

end M3U8
